import Mathlib

/-!
Shallow embedding of `src/examples/recorder-crx/src/background.ts` (the
background-service entry point of the recorder browser extension) and proofs
about its orchestration logic: the toolbar indicator updater (`changeAction`),
the lazily created engine session (`getCrxApp`), the attach flow (`attach`),
the tab attach/detach lifecycle listeners, the settings application and sync
listener, and the storage-state cookie filter (`saveStorageState`).

Module-level mutable state of the source file is modelled as explicit state
records threaded through the functions; Chrome/engine API calls are modelled
as emitted events; JavaScript exceptions are modelled as explicit boolean
"threw" results; `Date.now()` values are passed as explicit parameters.
-/

namespace RecorderCrx

/-- `type CrxMode = Mode | 'detached'` from the source: the recorder modes of
`@recorder/recorderTypes` plus the synthetic `detached` value. -/
inductive CrxMode where
  | none
  | standby
  | recording
  | assertingText
  | assertingVisibility
  | assertingValue
  | assertingSnapshot
  | inspecting
  | detached
deriving DecidableEq, Repr

/-- `const stoppedModes: CrxMode[] = ['none', 'standby', 'detached']` -/
def stoppedModes : List CrxMode := [.none, .standby, .detached]

/-- `const recordingModes: CrxMode[] = ['recording', 'assertingText',
'assertingVisibility', 'assertingValue', 'assertingSnapshot']` -/
def recordingModes : List CrxMode :=
  [.recording, .assertingText, .assertingVisibility, .assertingValue, .assertingSnapshot]

/-- The module-level mutable state read and written by `changeAction`:
`const attachedTabIds = new Set<number>()`,
`let currentMode: CrxMode | 'detached' | undefined` and
`let lastModeChangeTime: number | undefined`. -/
structure BgState where
  attachedTabIds : List Nat
  currentMode : Option CrxMode
  lastModeChangeTime : Option Nat
deriving DecidableEq, Repr

/-- The per-tab toolbar action update performed by one `changeAction` call:
`title` is the argument of `chrome.action.setTitle`, `text` the argument of
`chrome.action.setBadgeText` (the cleared branch passes `''`), and
`color`/`bgColor` the badge colors when set (the cleared branch does not set
them). -/
structure ActionUpdate where
  title : String
  text : String
  color : Option String
  bgColor : Option String
deriving DecidableEq, Repr

/-- The mode-defaulting step at the top of `changeAction`:
`if (!mode) mode = attachedTabIds.has(tabId) ? currentMode : 'detached';`.
Returns the local `mode` variable after this step (`Option` because
`currentMode` may be `undefined`). -/
def resolveMode (tabId : Nat) (modeArg : Option CrxMode) (st : BgState) : Option CrxMode :=
  match modeArg with
  | Option.none =>
      if st.attachedTabIds.contains tabId then st.currentMode else some CrxMode.detached
  | some m => some m

/-- The state write of `changeAction`:
`else if (mode !== 'detached') currentMode = mode;` — only an explicit,
non-`detached` mode argument writes `currentMode`; nothing else is written. -/
def updateCurrentMode (modeArg : Option CrxMode) (st : BgState) : BgState :=
  match modeArg with
  | Option.none => st
  | some m => if m = CrxMode.detached then st else { st with currentMode := some m }

/-- The `chrome.action` calls of `changeAction` for the resolved mode:
`if (!mode || stoppedModes.includes(mode))` clears the badge with title
`mode === 'none' ? 'Stopped' : 'Record'`; otherwise the badge shows
`REC`/`Recording` for the recording-family modes and `INS`/`Inspecting`
otherwise. -/
def renderAction (mode : Option CrxMode) : ActionUpdate :=
  match mode with
  | Option.none =>
      { title := "Record", text := "", color := Option.none, bgColor := Option.none }
  | some m =>
      if stoppedModes.contains m then
        { title := if m = CrxMode.none then "Stopped" else "Record",
          text := "", color := Option.none, bgColor := Option.none }
      else if recordingModes.contains m then
        { title := "Recording", text := "REC", color := some "white", bgColor := some "darkred" }
      else
        { title := "Inspecting", text := "INS", color := some "white", bgColor := some "dodgerblue" }

/-- `async function changeAction(tabId: number, mode?: CrxMode | 'detached')`.
Returns the updated module state, the resolved mode, and the toolbar update
performed for the tab, composed from the three steps above exactly as the
source sequences them. -/
def changeAction (tabId : Nat) (modeArg : Option CrxMode) (st : BgState) :
    BgState × Option CrxMode × ActionUpdate :=
  let mode := resolveMode tabId modeArg st
  (updateCurrentMode modeArg st, mode, renderAction mode)

/-! ### Engine session manager: `getCrxApp` as an interleaving state machine

`getCrxApp` reads `let crxAppPromise: Promise<CrxApplication> | undefined`,
a module-level memoization cell.  Its body is
```
if (!crxAppPromise) {
  const { ... } = await chrome.storage.sync.get([...]);   -- suspension point
  crxAppPromise = crx.start().then(crxApp => { ... });
}
return await crxAppPromise;
```
We model the promise cell as an `Option Nat` holding the identifier of the
`crx.start()` call that produced it, count the `crx.start()` calls, and give
each in-flight caller a program counter whose suspension points are exactly
the `await`s of the source. -/

/-- Module state touched by `getCrxApp`: the memoized promise cell (holding
the id of the `crx.start()` call it wraps) and the number of `crx.start()`
invocations (the expensive engine start sequence). -/
structure SessionState where
  crxAppPromise : Option Nat
  startCount : Nat
deriving DecidableEq, Repr

/-- Program counter of one caller of `getCrxApp`.  `entry`: about to run the
`if (!crxAppPromise)` check; `storageRead`: suspended at
`await chrome.storage.sync.get(...)` inside the guarded block; `done h`: the
caller's `return await crxAppPromise` has resolved to the handle produced by
start call `h`. -/
inductive SessionPC where
  | entry
  | storageRead
  | done (handle : Nat)
deriving DecidableEq, Repr

/-- One scheduler step of a `getCrxApp` caller.  From `entry`, the check and
everything up to the first `await` runs synchronously: if the promise cell is
set the caller just awaits it (resolving to its handle), otherwise the caller
suspends on the settings read.  From `storageRead`, the resumed continuation
synchronously assigns `crxAppPromise = crx.start().then(...)` — a fresh start
— and then awaits the promise it just wrote. -/
def getCrxAppStep (s : SessionState) (pc : SessionPC) : SessionState × SessionPC :=
  match pc with
  | SessionPC.entry =>
      match s.crxAppPromise with
      | some h => (s, SessionPC.done h)
      | Option.none => (s, SessionPC.storageRead)
  | SessionPC.storageRead =>
      let h := s.startCount
      ({ crxAppPromise := some h, startCount := s.startCount + 1 }, SessionPC.done h)
  | SessionPC.done h => (s, SessionPC.done h)

/-- Run two concurrent callers of `getCrxApp` under a schedule: `true` steps
caller 1, `false` steps caller 2.  The event loop is single-threaded, so a
schedule is an arbitrary interleaving of the callers' steps. -/
def runTwoCallers (sched : List Bool) (s : SessionState) (pc1 pc2 : SessionPC) :
    SessionState × SessionPC × SessionPC :=
  match sched with
  | [] => (s, pc1, pc2)
  | b :: rest =>
      if b then
        let (s', pc1') := getCrxAppStep s pc1
        runTwoCallers rest s' pc1' pc2
      else
        let (s', pc2') := getCrxAppStep s pc2
        runTwoCallers rest s' pc1 pc2'

/-- The initial module state: `crxAppPromise` is `undefined`, no engine start
has happened. -/
def initialSessionState : SessionState := { crxAppPromise := Option.none, startCount := 0 }

/-! ### Tab lifecycle listeners: `attached` / `detached`

`crxApp.addListener('attached', ...)` and `crxApp.addListener('detached', ...)`
mutate `attachedTabIds` and read/clear `const tabAttachTimes = new Map<number,
number>()`.  `Date.now()` is passed explicitly as `now`. -/

/-- Module state touched by the tab lifecycle listeners. -/
structure TrackerState where
  attachedTabIds : List Nat
  tabAttachTimes : List (Nat × Nat)
deriving DecidableEq, Repr

/-- The `attached` listener body:
`attachedTabIds.add(tabId)` followed by an indicator update and a telemetry
capture.  Note: no statement in the source writes to `tabAttachTimes`. -/
def onAttachedListener (tabId : Nat) (st : TrackerState) : TrackerState :=
  { st with
    attachedTabIds :=
      if st.attachedTabIds.contains tabId then st.attachedTabIds
      else st.attachedTabIds ++ [tabId] }

/-- The `detached` listener body: `attachedTabIds.delete(tabId)`, an indicator
update, a telemetry capture whose `session_duration` is
`Date.now() - (tabAttachTimes.get(tabId) || Date.now())`, then
`tabAttachTimes.delete(tabId)`.  Returns the new state and the emitted
`session_duration` (an `Int`, as the JS subtraction can be negative).  The
`|| Date.now()` fallback also fires on a stored value of `0`, matching JS
falsiness. -/
def onDetachedListener (tabId : Nat) (now : Nat) (st : TrackerState) : TrackerState × Int :=
  let stored : Option Nat := st.tabAttachTimes.lookup tabId
  let base : Nat :=
    match stored with
    | some t => if t = 0 then now else t
    | Option.none => now
  let duration : Int := (now : Int) - (base : Int)
  ({ attachedTabIds := st.attachedTabIds.filter (fun t => t ≠ tabId),
     tabAttachTimes := st.tabAttachTimes.filter (fun p => p.1 ≠ tabId) },
   duration)

/-! ### The attach flow: `async function attach(tab, mode?)`

Chrome/engine calls are modelled as emitted events; each fallible engine call
is given a boolean in `AttachEnv` saying whether it throws on this run.
The source:
```
if (!tab?.id || (attachedTabIds.has(tab.id) && !mode)) return;
const tabId = tab.id;
if (sidepanel) chrome.sidePanel.open({ windowId: tab.windowId });
chrome.action.disable();
const crxApp = await getCrxApp();          -- NOTE: outside the try block
try {
  if (crxApp.recorder.isHidden())
    await crxApp.recorder.show({ mode: mode ?? 'recording', ... });
  await crxApp.attach(tabId);
  if (mode) await crxApp.recorder.setMode(mode);
} catch (e) {
  await crxApp.newPage();
} finally {
  chrome.action.enable();
}
```
-/

/-- A `chrome.tabs.Tab` restricted to the fields `attach` reads. -/
structure Tab where
  id : Option Nat
  windowId : Nat
deriving DecidableEq, Repr

/-- The observable side effects of one `attach` run, in order. -/
inductive AttachEvent where
  | sidePanelOpen (windowId : Nat)
  | actionDisable
  | sessionStart
  | recorderShow (mode : CrxMode)
  | engineAttach (tabId : Nat)
  | recorderSetMode (mode : CrxMode)
  | newPage
  | actionEnable
deriving DecidableEq, Repr

/-- Which fallible calls throw on this run, and whether the recorder UI is
currently hidden (`crxApp.recorder.isHidden()`). -/
structure AttachEnv where
  getCrxAppThrows : Bool
  recorderHidden : Bool
  showThrows : Bool
  attachCallThrows : Bool
  setModeThrows : Bool
  newPageThrows : Bool
deriving DecidableEq, Repr

/-- Module state read or written along the attach flow: the tracker state, the
`sidepanel` display flag, and whether `crxAppPromise` has been assigned
(`getCrxApp` assigns it on first successful settings read). -/
structure AttachState where
  bg : BgState
  sidepanel : Bool
  sessionStarted : Bool
deriving DecidableEq, Repr

/-- JS truthiness of `tab?.id`: `undefined` and `0` are falsy. -/
def jsTruthyId : Option Nat → Bool
  | Option.none => false
  | some n => n ≠ 0

/-- Sequencing of the try-block steps: each step contributes its events and a
flag saying whether it threw; the first throw aborts the rest. -/
def trySeq : List (List AttachEvent × Bool) → List AttachEvent × Bool
  | [] => ([], false)
  | (evs, threw) :: rest =>
      if threw then (evs, true)
      else
        let (evs2, t2) := trySeq rest
        (evs ++ evs2, t2)

/-- The body of the `try` block of `attach`: show the recorder when hidden
(with `mode ?? 'recording'`), attach the engine to the tab, and force the
requested mode when one was given. -/
def attachTryBody (tabId : Nat) (modeArg : Option CrxMode) (env : AttachEnv) :
    List AttachEvent × Bool :=
  trySeq
    [ (if env.recorderHidden
        then ([AttachEvent.recorderShow (modeArg.getD CrxMode.recording)], env.showThrows)
        else ([], false)),
      ([AttachEvent.engineAttach tabId], env.attachCallThrows),
      (match modeArg with
        | some m => ([AttachEvent.recorderSetMode m], env.setModeThrows)
        | Option.none => ([], false)) ]

/-- `async function attach(tab: chrome.tabs.Tab, mode?: Mode)`.  Returns the
updated module state, the ordered event trace, and whether the call threw an
exception that escaped `attach` itself.  When `getCrxApp` throws (its settings
read rejects), the `try`/`finally` has not been entered yet, so the function
rethrows immediately after `chrome.action.disable()`. -/
def attach (tab : Tab) (modeArg : Option CrxMode) (env : AttachEnv) (st : AttachState) :
    AttachState × List AttachEvent × Bool :=
  if !(jsTruthyId tab.id) then (st, [], false)
  else
    match tab.id with
    | Option.none => (st, [], false)
    | some tabId =>
      if st.bg.attachedTabIds.contains tabId && modeArg.isNone then (st, [], false)
      else
        let evPre : List AttachEvent :=
          (if st.sidepanel then [AttachEvent.sidePanelOpen tab.windowId] else [])
            ++ [AttachEvent.actionDisable]
        if env.getCrxAppThrows then (st, evPre, true)
        else
          let evSession : List AttachEvent :=
            if st.sessionStarted then [] else [AttachEvent.sessionStart]
          let st1 := { st with sessionStarted := true }
          let (evTry, threw) := attachTryBody tabId modeArg env
          let (evCatch, threwFinal) :=
            if threw then ([AttachEvent.newPage], env.newPageThrows) else ([], false)
          (st1, evPre ++ evSession ++ evTry ++ evCatch ++ [AttachEvent.actionEnable], threwFinal)

/-! ### Settings: startup application and the `chrome.storage.sync.onChanged`
listener -/

/-- Module/engine state touched by the settings code paths.
`engineSelectorAttr` models the engine cell written by
`playwright.selectors.setTestIdAttribute`: `Option.none` means the setter was
never called, `some v` means it was last called with value `v` (where `v` is
itself an `Option String` because the source can pass `undefined`). -/
structure SettingsState where
  engineSelectorAttr : Option (Option String)
  language : Option String
  sidepanel : Bool
deriving DecidableEq, Repr

/-- `async function setTestIdAttributeName(testIdAttributeName)`: forwards its
argument to `playwright.selectors.setTestIdAttribute`. -/
def setTestIdAttributeName (v : Option String) (st : SettingsState) : SettingsState :=
  { st with engineSelectorAttr := some v }

/-- JS truthiness of a string-or-undefined: `undefined` and `''` are falsy. -/
def jsTruthyStr : Option String → Bool
  | Option.none => false
  | some s => s ≠ ""

/-- The settings-application portion of `getCrxApp`'s creation sequence
(run after engine start and listener registration):
```
if (!testIdAttributeName)
  setTestIdAttributeName(testIdAttributeName);
if (!language && targetLanguage)
  language = targetLanguage;
```
where `testIdAttributeName` and `targetLanguage` are the values read from
`chrome.storage.sync`. -/
def applySettingsOnStart (testIdAttributeName targetLanguage : Option String)
    (st : SettingsState) : SettingsState :=
  let st1 :=
    if !(jsTruthyStr testIdAttributeName) then setTestIdAttributeName testIdAttributeName st
    else st
  if !(jsTruthyStr st1.language) && jsTruthyStr targetLanguage then
    { st1 with language := targetLanguage }
  else st1

/-- A `chrome.storage.sync.onChanged` notification restricted to the keys the
listener destructures.  An outer `some` means the notification contains an
entry for that key; the inner value is the entry's `newValue` (which can be
`undefined`, i.e. `Option.none`, when the key was removed). -/
structure SyncChanges where
  testIdAttributeName : Option (Option String)
  targetLanguage : Option (Option String)
  sidepanel : Option (Option Bool)
deriving DecidableEq, Repr

/-- The `chrome.storage.sync.onChanged` listener:
```
async ({ testIdAttributeName, targetLanguage, sidepanel: sidepanelChange }) => {
  if (testIdAttributeName) await setTestIdAttributeName(testIdAttributeName.newValue);
  if (targetLanguage) language = targetLanguage.newValue;
  if (sidepanelChange.newValue !== undefined) sidepanel = sidepanelChange.newValue;
}
```
Returns the updated state and `true` when the handler throws: reading
`sidepanelChange.newValue` of an absent entry is a `TypeError`, raised after
the first two updates have already been applied. -/
def onStorageSyncChanged (ch : SyncChanges) (st : SettingsState) : SettingsState × Bool :=
  let st1 :=
    match ch.testIdAttributeName with
    | some nv => setTestIdAttributeName nv st
    | Option.none => st
  let st2 :=
    match ch.targetLanguage with
    | some nv => { st1 with language := nv }
    | Option.none => st1
  match ch.sidepanel with
  | Option.none => (st2, true)
  | some nv =>
      match nv with
      | some b => ({ st2 with sidepanel := b }, false)
      | Option.none => (st2, false)

/-! ### Storage-state cookie filtering in `saveStorageState` -/

/-- A cookie restricted to the fields the filter reads. -/
structure Cookie where
  domain : String
  path : String
  secure : Bool
deriving DecidableEq, Repr

/-- A parsed URL (`new URL(s)`) restricted to the fields the filter reads. -/
structure ParsedURL where
  protocol : String
  hostname : String
  pathname : String
deriving DecidableEq, Repr

/-- JS `String.prototype.startsWith`, expressed on the character sequences of
the strings (the kernel-reducible form of `String.startsWith`). -/
def jsStartsWith (s p : String) : Bool := p.data.isPrefixOf s.data

/-- JS `String.prototype.endsWith`, expressed on the character sequences of
the strings (the kernel-reducible form of `String.endsWith`). -/
def jsEndsWith (s p : String) : Bool := p.data.isSuffixOf s.data

/-- The per-URL cookie test from the loop body of the filter predicate in
`saveStorageState`:
```
let domain = c.domain;
if (!domain.startsWith('.')) domain = '.' + domain;
if (!('.' + parsedURL.hostname).endsWith(domain)) continue;
if (!parsedURL.pathname.startsWith(c.path)) continue;
if (parsedURL.protocol !== 'https:' && parsedURL.hostname !== 'localhost' && c.secure) continue;
return true;
```
-/
def cookieMatchesURL (c : Cookie) (u : ParsedURL) : Bool :=
  let domain := if jsStartsWith c.domain "." then c.domain else "." ++ c.domain
  if !(jsEndsWith ("." ++ u.hostname) domain) then false
  else if !(jsStartsWith u.pathname c.path) then false
  else if u.protocol ≠ "https:" && u.hostname ≠ "localhost" && c.secure then false
  else true

/-- The whole filter predicate applied to one cookie:
`if (!parsedURLs.length) return true;` then the loop over `parsedURLs`,
returning `false` after the loop. -/
def cookieRetained (parsedURLs : List ParsedURL) (c : Cookie) : Bool :=
  if parsedURLs.isEmpty then true
  else parsedURLs.any (fun u => cookieMatchesURL c u)

/-- `const cookies = allCookies.filter(c => ...)` from `saveStorageState`. -/
def filterCookies (parsedURLs : List ParsedURL) (allCookies : List Cookie) : List Cookie :=
  allCookies.filter (cookieRetained parsedURLs)

/-- The spec's characterization of cookie retention against one URL, written
from the spec's words for comparison with `cookieMatchesURL`: domain suffix
match with leading-dot normalization, path-prefix match of the URL's pathname
against the cookie's path, and, for secure cookies, the URL having the
`https:` protocol or hostname `localhost`. -/
def specCookieMatch (c : Cookie) (u : ParsedURL) : Prop :=
  jsEndsWith ("." ++ u.hostname)
      (if jsStartsWith c.domain "." then c.domain else "." ++ c.domain) = true
  ∧ jsStartsWith u.pathname c.path = true
  ∧ (c.secure = true → u.protocol = "https:" ∨ u.hostname = "localhost")

instance (c : Cookie) (u : ParsedURL) : Decidable (specCookieMatch c u) := by
  unfold specCookieMatch
  infer_instance

/-! ### Concrete fixtures used in witness instantiations -/

/-- A module state with no attached tabs and no mode yet. -/
def sampleBgState : BgState :=
  { attachedTabIds := [], currentMode := Option.none, lastModeChangeTime := Option.none }

/-- A settings state before any setter call, with the default sidepanel flag
(`let sidepanel = true`). -/
def sampleSettings : SettingsState :=
  { engineSelectorAttr := Option.none, language := Option.none, sidepanel := true }

/-- The attached-tab URL of the spec's worked example:
`https://example.com/app`. -/
def exampleURL : ParsedURL :=
  { protocol := "https:", hostname := "example.com", pathname := "/app" }

/-! ## Theorems -/

/-- Helper: the loop body of the cookie filter decides exactly the spec's
three-part test (domain suffix with leading-dot normalization, path prefix,
secure-cookie/HTTPS-or-localhost). -/
theorem cookieMatchesURL_iff_spec (c : Cookie) (u : ParsedURL) :
    cookieMatchesURL c u = true ↔ specCookieMatch c u := by
  unfold cookieMatchesURL specCookieMatch
  by_cases h1 : jsEndsWith ("." ++ u.hostname)
      (if jsStartsWith c.domain "." then c.domain else "." ++ c.domain) <;>
    simp only [h1, Bool.not_true, Bool.not_false, if_true, if_false] <;>
    by_cases h2 : jsStartsWith u.pathname c.path <;>
    by_cases hs : c.secure <;>
    by_cases hp : u.protocol = "https:" <;>
    by_cases hh : u.hostname = "localhost" <;>
    simp [h1, h2, hs, hp, hh]

/-- C5: for every tab identifier not in `attachedTabIds`, `changeAction` with
no explicit mode resolves the mode to `detached` and clears the indicator
(badge text set to empty); and whenever the resolved mode is one of the
stopped modes (`none`, `standby`, `detached`), the badge is cleared with
title `"Stopped"` exactly when the mode is `none` and `"Record"` otherwise. -/
theorem changeAction_stopped_clears :
    (∀ (tabId : Nat) (st : BgState), tabId ∉ st.attachedTabIds →
      (changeAction tabId Option.none st).2.1 = some CrxMode.detached ∧
      (changeAction tabId Option.none st).2.2.text = "") ∧
    (∀ (tabId : Nat) (modeArg : Option CrxMode) (st : BgState) (m : CrxMode),
      (changeAction tabId modeArg st).2.1 = some m → m ∈ stoppedModes →
      (changeAction tabId modeArg st).2.2.text = "" ∧
      (changeAction tabId modeArg st).2.2.title
        = if m = CrxMode.none then "Stopped" else "Record") := by
  constructor
  · intro tabId st h
    constructor
    · show resolveMode tabId Option.none st = some CrxMode.detached
      simp [resolveMode, h]
    · show (renderAction (resolveMode tabId Option.none st)).text = ""
      simp [resolveMode, h, renderAction, stoppedModes]
  · intro tabId modeArg st m hres hm
    have hres' : resolveMode tabId modeArg st = some m := hres
    have hgoal1 : (changeAction tabId modeArg st).2.2
        = renderAction (resolveMode tabId modeArg st) := rfl
    rw [hgoal1, hres']
    simp only [stoppedModes, List.mem_cons, List.not_mem_nil, or_false] at hm
    rcases hm with rfl | rfl | rfl <;> simp [renderAction, stoppedModes]

/-- C5 witness: concrete instantiations of both halves of
`changeAction_stopped_clears` on tab `5` (not attached) and on an explicit
`standby` mode. -/
theorem changeAction_stopped_clears_witness :
    ((changeAction 5 Option.none sampleBgState).2.1 = some CrxMode.detached ∧
      (changeAction 5 Option.none sampleBgState).2.2.text = "") ∧
    ((changeAction 5 (some CrxMode.standby) sampleBgState).2.2.text = "" ∧
      (changeAction 5 (some CrxMode.standby) sampleBgState).2.2.title
        = if CrxMode.standby = CrxMode.none then "Stopped" else "Record") :=
  ⟨changeAction_stopped_clears.1 5 sampleBgState (by decide),
   changeAction_stopped_clears.2 5 (some CrxMode.standby) sampleBgState CrxMode.standby
     (by decide) (by decide)⟩

/-- C6: an explicit `detached` mode argument leaves the stored `currentMode`
unchanged; any other explicit mode argument overwrites it with that value; no
other module state (`attachedTabIds`, `lastModeChangeTime`) is modified by
the call. -/
theorem changeAction_explicit_mode_state (tabId : Nat) (m : CrxMode) (st : BgState) :
    ((changeAction tabId (some m) st).1.currentMode
        = if m = CrxMode.detached then st.currentMode else some m) ∧
    (changeAction tabId (some m) st).1.attachedTabIds = st.attachedTabIds ∧
    (changeAction tabId (some m) st).1.lastModeChangeTime = st.lastModeChangeTime := by
  have h1 : (changeAction tabId (some m) st).1 = updateCurrentMode (some m) st := rfl
  rw [h1]
  unfold updateCurrentMode
  by_cases h : m = CrxMode.detached <;> simp [h]

/-- C9: with no URLs collected from the session's pages and frames, the
storage-state cookie filter keeps every cookie (each per-cookie test
short-circuits to `true` on the empty URL list). -/
theorem filterCookies_empty_urls (allCookies : List Cookie) :
    filterCookies [] allCookies = allCookies :=
  List.filter_eq_self.mpr (fun _ _ => rfl)

/-- C7: against a non-empty URL list, a cookie is retained by the
storage-state filter if and only if some URL satisfies the spec's three-part
match (domain suffix with leading-dot normalization, path prefix, and the
secure-cookie/HTTPS-or-localhost check); moreover on the worked example URL
`https://example.com/app`, `{domain: example.com, path: /, secure: true}` is
retained while `{domain: other.com}` and
`{domain: example.com, path: /admin, secure: false}` are dropped. -/
theorem saveStorageState_cookie_filter :
    (∀ (urls : List ParsedURL) (c : Cookie), urls ≠ [] →
      (cookieRetained urls c = true ↔ ∃ u ∈ urls, specCookieMatch c u)) ∧
    cookieRetained [exampleURL] { domain := "example.com", path := "/", secure := true } = true ∧
    cookieRetained [exampleURL] { domain := "other.com", path := "/", secure := false } = false ∧
    cookieRetained [exampleURL] { domain := "example.com", path := "/admin", secure := false }
      = false := by
  refine ⟨?_, by decide, by decide, by decide⟩
  intro urls c hne
  unfold cookieRetained
  rcases urls with _ | ⟨u, us⟩
  · exact absurd rfl hne
  · simp [List.any_eq_true, cookieMatchesURL_iff_spec]

/-- C7 witness: the iff of `saveStorageState_cookie_filter` instantiated at
the worked example URL and the retained cookie. -/
theorem saveStorageState_cookie_filter_witness :
    cookieRetained [exampleURL] { domain := "example.com", path := "/", secure := true } = true ↔
      ∃ u ∈ [exampleURL],
        specCookieMatch { domain := "example.com", path := "/", secure := true } u :=
  saveStorageState_cookie_filter.1 [exampleURL]
    { domain := "example.com", path := "/", secure := true } (by simp)

/-- C8: the attach flow is a no-op — state unmodified, no side panel opened,
no toolbar disable, no engine call, no exception — when the tab has no
(truthy) identifier, or when the tab is already attached and no explicit mode
is requested. -/
theorem attach_noop (tab : Tab) (modeArg : Option CrxMode) (env : AttachEnv)
    (st : AttachState)
    (h : tab.id = Option.none ∨
      ∃ tabId, tab.id = some tabId ∧ tabId ∈ st.bg.attachedTabIds ∧ modeArg = Option.none) :
    attach tab modeArg env st = (st, [], false) := by
  rcases h with h | ⟨tabId, hid, hmem, hmode⟩
  · unfold attach
    rw [h]
    simp [jsTruthyId]
  · unfold attach
    rw [hid]
    by_cases h0 : tabId = 0
    · simp [jsTruthyId, h0]
    · simp [jsTruthyId, h0, hmem, hmode]

/-- C8 witness: `attach_noop` applied to tab `1` already attached, with no
explicit mode. -/
theorem attach_noop_witness :
    attach { id := some 1, windowId := 7 } Option.none
        { getCrxAppThrows := false, recorderHidden := true, showThrows := false,
          attachCallThrows := false, setModeThrows := false, newPageThrows := false }
        { bg := { attachedTabIds := [1], currentMode := Option.none,
                  lastModeChangeTime := Option.none },
          sidepanel := true, sessionStarted := false }
      = ({ bg := { attachedTabIds := [1], currentMode := Option.none,
                   lastModeChangeTime := Option.none },
           sidepanel := true, sessionStarted := false }, [], false) :=
  attach_noop _ _ _ _ (Or.inr ⟨1, rfl, by decide, rfl⟩)

/-- C3 counterexample: an attach-flow run for an unattached tab with an
identifier and no explicit mode, in which obtaining the session
(`await getCrxApp()`) throws.  The toolbar icon is disabled but never
re-enabled, because the session acquisition sits before the `try`/`finally`
block — refuting the claim that the icon is re-enabled even when obtaining
the session throws. -/
theorem attach_reenable_counterexample :
    AttachEvent.actionDisable ∈
      (attach { id := some 1, windowId := 7 } Option.none
        { getCrxAppThrows := true, recorderHidden := true, showThrows := false,
          attachCallThrows := false, setModeThrows := false, newPageThrows := false }
        { bg := { attachedTabIds := [], currentMode := Option.none,
                  lastModeChangeTime := Option.none },
          sidepanel := true, sessionStarted := false }).2.1 ∧
    AttachEvent.actionEnable ∉
      (attach { id := some 1, windowId := 7 } Option.none
        { getCrxAppThrows := true, recorderHidden := true, showThrows := false,
          attachCallThrows := false, setModeThrows := false, newPageThrows := false }
        { bg := { attachedTabIds := [], currentMode := Option.none,
                  lastModeChangeTime := Option.none },
          sidepanel := true, sessionStarted := false }).2.1 := by
  decide

/-- C3 amended: for every attach-flow invocation on a tab with a truthy
identifier that takes the non-no-op path, when obtaining the session
succeeds, the toolbar icon is re-enabled as the last action of the run, no
matter which of the later steps (showing the recorder, attaching, setting
the mode, or the fallback `newPage`) throw; the `finally` block guarantees
this only for failures after the session is obtained. -/
theorem attach_reenables_when_session_obtained (tabId windowId : Nat)
    (modeArg : Option CrxMode) (env : AttachEnv) (st : AttachState)
    (hid : tabId ≠ 0)
    (hnoop : st.bg.attachedTabIds.contains tabId = false ∨ modeArg.isSome = true)
    (hsess : env.getCrxAppThrows = false) :
    AttachEvent.actionEnable ∈
      (attach { id := some tabId, windowId := windowId } modeArg env st).2.1 ∧
    (attach { id := some tabId, windowId := windowId } modeArg env st).2.1.getLast?
      = some AttachEvent.actionEnable := by
  have hP : ¬(tabId ∈ st.bg.attachedTabIds ∧ modeArg = Option.none) := by
    rintro ⟨hm, hn⟩
    rcases hnoop with h | h
    · simp [hm] at h
    · rw [hn] at h
      simp at h
  unfold attach
  simp [jsTruthyId, hid, hP, hsess]
  generalize (if st.sessionStarted = true then ([] : List AttachEvent)
    else [AttachEvent.sessionStart]) = l1
  generalize (attachTryBody tabId modeArg env).1 = l2
  generalize (if (attachTryBody tabId modeArg env).2 = true
    then ([AttachEvent.newPage], env.newPageThrows)
    else (([] : List AttachEvent), false)).1 = l3
  rw [show AttachEvent.actionDisable :: (l1 ++ (l2 ++ (l3 ++ [AttachEvent.actionEnable])))
      = (AttachEvent.actionDisable :: (l1 ++ l2 ++ l3)) ++ [AttachEvent.actionEnable] by simp]
  exact List.getLast?_concat _

/-- C3 amended witness: `attach_reenables_when_session_obtained` on tab `2`
with every step after session acquisition throwing. -/
theorem attach_reenables_when_session_obtained_witness :
    AttachEvent.actionEnable ∈
      (attach { id := some 2, windowId := 7 } Option.none
        { getCrxAppThrows := false, recorderHidden := true, showThrows := true,
          attachCallThrows := true, setModeThrows := true, newPageThrows := true }
        { bg := sampleBgState, sidepanel := false, sessionStarted := false }).2.1 ∧
    (attach { id := some 2, windowId := 7 } Option.none
        { getCrxAppThrows := false, recorderHidden := true, showThrows := true,
          attachCallThrows := true, setModeThrows := true, newPageThrows := true }
        { bg := sampleBgState, sidepanel := false, sessionStarted := false }).2.1.getLast?
      = some AttachEvent.actionEnable :=
  attach_reenables_when_session_obtained 2 7 Option.none _ _ (by decide)
    (Or.inl (by decide)) rfl

/-- C1: two callers of `getCrxApp` that both pass the `if (!crxAppPromise)`
check before the first caller's `await chrome.storage.sync.get` resolves
each assign a fresh `crx.start().then(...)` promise: the engine start
sequence runs twice (`startCount = 2`) and the callers resolve to different
handles — the memoization races because the settings read is awaited before
the promise cell is written. -/
theorem getCrxApp_concurrent_double_start :
    (runTwoCallers [true, false, true, false] initialSessionState
        SessionPC.entry SessionPC.entry).1.startCount = 2 ∧
    (runTwoCallers [true, false, true, false] initialSessionState
        SessionPC.entry SessionPC.entry).2.1 = SessionPC.done 0 ∧
    (runTwoCallers [true, false, true, false] initialSessionState
        SessionPC.entry SessionPC.entry).2.2 = SessionPC.done 1 ∧
    (runTwoCallers [true, true, false] initialSessionState
        SessionPC.entry SessionPC.entry).1.startCount = 1 := by
  decide

/-- C2: the `attached` listener never writes `tabAttachTimes` (no statement
in the source does), so after attaching tab `1` the map has no entry for it,
and the `detached` telemetry's `session_duration` evaluates to `0`
(`Date.now() - Date.now()` via the `|| Date.now()` fallback) instead of the
elapsed time since attach. -/
theorem tabAttachTimes_never_recorded :
    (∀ (tabId : Nat) (st : TrackerState),
      (onAttachedListener tabId st).tabAttachTimes = st.tabAttachTimes) ∧
    (onAttachedListener 1
        { attachedTabIds := [], tabAttachTimes := [] }).tabAttachTimes.lookup 1
      = Option.none ∧
    (onDetachedListener 1 250
        (onAttachedListener 1 { attachedTabIds := [], tabAttachTimes := [] })).2 = 0 := by
  refine ⟨fun tabId st => rfl, by decide, by decide⟩

/-- C4: the startup settings application guards the selector-attribute call
with `if (!testIdAttributeName)` — the inverted condition.  A persisted value
`"data-testid"` is therefore never forwarded to
`playwright.selectors.setTestIdAttribute` (the engine cell stays unset),
while an absent value triggers a call passing `undefined`.  The
target-language half behaves as specified. -/
theorem applySettingsOnStart_inverted_guard :
    (applySettingsOnStart (some "data-testid") Option.none sampleSettings).engineSelectorAttr
      = Option.none ∧
    (applySettingsOnStart Option.none Option.none sampleSettings).engineSelectorAttr
      = some Option.none ∧
    (applySettingsOnStart Option.none (some "python") sampleSettings).language
      = some "python" := by
  decide

/-- C10: a `chrome.storage.sync.onChanged` notification with no `sidepanel`
entry makes the listener throw (it reads `.newValue` of `undefined`), but
only after the selector-attribute and target-language updates in the same
notification have been applied; conversely the handler completes without
throwing exactly when the notification contains a `sidepanel` entry. -/
theorem onStorageSyncChanged_missing_sidepanel_throws (ch : SyncChanges)
    (st : SettingsState) (h : ch.sidepanel = Option.none) :
    (onStorageSyncChanged ch st).2 = true ∧
    (onStorageSyncChanged ch st).1.sidepanel = st.sidepanel ∧
    (∀ nv, ch.testIdAttributeName = some nv →
      (onStorageSyncChanged ch st).1.engineSelectorAttr = some nv) ∧
    (∀ nv, ch.targetLanguage = some nv → (onStorageSyncChanged ch st).1.language = nv) ∧
    (∀ ch2 : SyncChanges, (onStorageSyncChanged ch2 st).2 = false →
      ch2.sidepanel.isSome = true) := by
  refine ⟨?_, ?_, ?_, ?_, ?_⟩
  · unfold onStorageSyncChanged
    rw [h]
  · unfold onStorageSyncChanged
    rw [h]
    rcases ch.testIdAttributeName with _ | nv1 <;>
      rcases ch.targetLanguage with _ | nv2 <;> rfl
  · intro nv hnv
    unfold onStorageSyncChanged
    rw [h, hnv]
    rcases ch.targetLanguage with _ | nv2 <;> rfl
  · intro nv hnv
    unfold onStorageSyncChanged
    rw [h, hnv]
  · intro ch2 h2
    unfold onStorageSyncChanged at h2
    rcases hsp : ch2.sidepanel with _ | nv
    · rw [hsp] at h2
      simp at h2
    · rfl

/-- C10 witness: `onStorageSyncChanged_missing_sidepanel_throws` on a
notification carrying new selector-attribute and language values but no
`sidepanel` entry. -/
theorem onStorageSyncChanged_missing_sidepanel_throws_witness :
    (onStorageSyncChanged
        { testIdAttributeName := some (some "data-qa"),
          targetLanguage := some (some "python"), sidepanel := Option.none }
        sampleSettings).2 = true ∧
    (onStorageSyncChanged
        { testIdAttributeName := some (some "data-qa"),
          targetLanguage := some (some "python"), sidepanel := Option.none }
        sampleSettings).1.engineSelectorAttr = some (some "data-qa") ∧
    (onStorageSyncChanged
        { testIdAttributeName := some (some "data-qa"),
          targetLanguage := some (some "python"), sidepanel := Option.none }
        sampleSettings).1.language = some "python" :=
  ⟨(onStorageSyncChanged_missing_sidepanel_throws _ sampleSettings rfl).1,
   (onStorageSyncChanged_missing_sidepanel_throws _ sampleSettings rfl).2.2.1 _ rfl,
   (onStorageSyncChanged_missing_sidepanel_throws _ sampleSettings rfl).2.2.2.1 _ rfl⟩

end RecorderCrx
